import Mathlib

/-!
Verification development for the wdom live-document synchronization core.

The definitions below are a shallow embedding of two Python modules:

* `wdom/server/__init__.py` — the outbound message queue (`push_message`,
  `send_message`) and the periodic `_message_loop` that drains it;
* `wdom/server_tornado.py` — the WebSocket handler (`WSHandler.open`,
  `WSHandler.on_message`, `WSHandler.on_close`, `WSHandler.terminate`),
  i.e. the connection registry, the inbound message router and the
  auto-shutdown policy.

Messages are modelled as `Nat` (their content is irrelevant to every
property proved here); a connection is an identity plus a flag saying
whether a `write_message` to it raises (Tornado raises
`WebSocketClosedError` on a closed peer — the adapter boundary).
Python exceptions are modelled explicitly: a function that can raise
returns the exception as part of its result.
-/

/-- One live client connection: an identity (Python object identity, used
by `in` / `list.remove`) and whether `write_message` to it raises. -/
structure Conn where
  id : Nat
  writeFails : Bool
deriving DecidableEq

/-! ## Outbound message queue (`wdom/server/__init__.py`) -/

/-- State touched by `push_message` / `send_message`: the module-level
`_msg_queue` list and `module.connections`. -/
structure SState where
  msg_queue : List Nat
  connections : List Conn
deriving DecidableEq

/-- `push_message(msg)`: `_msg_queue.append(msg)`. -/
def push_message (m : Nat) (st : SState) : SState :=
  { st with msg_queue := st.msg_queue ++ [m] }

/-- The `for conn in module.connections: conn.write_message(msg)` loop of
`send_message`. Returns the deliveries actually performed (connection id,
batch) and whether a write raised. A raising write aborts the loop, so
connections after the first failing one receive nothing. -/
def write_all (batch : List Nat) : List Conn → List (Nat × List Nat) × Bool
  | [] => ([], false)
  | c :: rest =>
    if c.writeFails then ([], true)
    else
      let r := write_all batch rest
      ((c.id, batch) :: r.1, r.2)

/-- `send_message()`: if `_msg_queue` is empty, return immediately (no
frame written); otherwise serialize the whole queue as one batch, clear the
queue, then write the batch to every connection. The clear happens before
the write loop, so the queue is empty afterwards even if a write raises.
Result: (new state, deliveries performed, exception raised?). -/
def send_message (st : SState) : SState × List (Nat × List Nat) × Bool :=
  if st.msg_queue = [] then (st, [], false)
  else
    let r := write_all st.msg_queue st.connections
    ({ st with msg_queue := [] }, r.1, r.2)

/-- One iteration of `_message_loop` (`while True: send_message(); yield
from asyncio.sleep(...)`). `send_message()` is not wrapped in any handler,
so an exception propagates and terminates the loop task: modelled as
`none`. -/
def message_loop_step (st : SState) : Option (SState × List (Nat × List Nat)) :=
  let r := send_message st
  if r.2.2 then none else some (r.1, r.2.1)

/-! ### Trace semantics of the queue, for the batching property -/

/-- An operation on the queue: one `push_message` or one `send_message`
(drain). -/
inductive QOp where
  | push (m : Nat)
  | drain
deriving DecidableEq

/-- Queue-trace state: current `_msg_queue` plus the batches broadcast so
far, in broadcast order. -/
structure QState where
  msg_queue : List Nat
  batches : List (List Nat)
deriving DecidableEq

/-- Effect of one operation: `push` appends; `drain` does nothing on an
empty queue, otherwise emits the whole queue as one batch and clears it —
exactly the control flow of `send_message`. -/
def qstep (st : QState) : QOp → QState
  | .push m => { st with msg_queue := st.msg_queue ++ [m] }
  | .drain =>
    if st.msg_queue = [] then st
    else { msg_queue := [], batches := st.batches ++ [st.msg_queue] }

/-- Run a sequence of queue operations from the initial (empty) state. -/
def qrun (ops : List QOp) : QState :=
  ops.foldl qstep ⟨[], []⟩

/-- The messages pushed by a trace, in order. -/
def pushedMsgs (ops : List QOp) : List Nat :=
  ops.filterMap fun op => match op with | .push m => some m | .drain => none

/-! ## WebSocket handler (`wdom/server_tornado.py`) -/

/-- The result of `json.loads` on an inbound frame when it is a JSON
object: the fields `WSHandler.on_message` reads via `msg.get(...)`. A
missing field is `none`. -/
structure InboundObj where
  typ : Option String
  level : Option String
  message : Option String
deriving DecidableEq

/-- One call to `log_handler(level, message)`. -/
structure LogCall where
  level : Option String
  text : Option String
deriving DecidableEq

/-- Document state visible to the handlers: element tree, pending-request
table, connection registry and outbound queue (abstractly typed — the
claims only need identity comparisons on whole components). -/
structure DocState where
  tree : List Nat
  pending : List (Nat × Nat)
  connections : List Conn
  msg_queue : List Nat
deriving DecidableEq

/-- Python exceptions relevant to `on_message`. `json.loads` raises a
decode error on unparseable input; `malformedMessageError` is the error
the specification names, listed here only so that theorems can state that
the code never produces it. -/
inductive PyErr where
  | jsonDecodeError
  | malformedMessageError
deriving DecidableEq

deriving instance DecidableEq for Except

/-- `WSHandler.on_message(message)`. `raw = none` models an unparseable
frame: `json.loads` raises, and the exception propagates (there is no
try/except). Otherwise `_type = msg.get('type')` selects a branch of the
if/elif chain; no branch matches an unknown or missing type, so such a
message is silently ignored. `event_handler` and `response_handler` live
in `wdom.handler` and are parameters here; the `log` branch calls
`log_handler(msg.get('level'), msg.get('message'))`, modelled from the
spec: `log_handler` forwards `(level, text)` to the process logging sink
and has no further side effect, so it returns the document state
unchanged and records one `LogCall`. -/
def ws_on_message (eventH respH : InboundObj → DocState → DocState)
    (raw : Option InboundObj) (st : DocState) :
    Except PyErr (DocState × List LogCall) :=
  match raw with
  | none => .error .jsonDecodeError
  | some msg =>
    if msg.typ = some "log" then .ok (st, [⟨msg.level, msg.message⟩])
    else if msg.typ = some "event" then .ok (eventH msg st, [])
    else if msg.typ = some "response" then .ok (respH msg st, [])
    else .ok (st, [])

/-- `WSHandler.open`: `get_document().connections.append(self)` — an
unconditional append, with no membership check and no possible error. -/
def ws_open (c : Conn) (st : DocState) : DocState :=
  { st with connections := st.connections ++ [c] }

/-- Python `list.remove`: drop the first occurrence. (Only reached under
an `in` guard in `on_close`, so the absent case never raises here.) -/
def removeFirst : List Conn → Conn → List Conn
  | [], _ => []
  | x :: xs, c => if x = c then xs else x :: removeFirst xs c

/-- `WSHandler.on_close`: remove `self` from the registry if present
(guarded, so absence is a no-op); then, if `config.auto_shutdown` is set
and the registry is empty, schedule `terminate()`. Result: (new document
state, timer armed?). -/
def ws_on_close (auto_shutdown : Bool) (c : Conn) (st : DocState) :
    DocState × Bool :=
  let conns :=
    if c ∈ st.connections then removeFirst st.connections c
    else st.connections
  ({ st with connections := conns }, auto_shutdown && conns.isEmpty)

/-! ### Connection-lifecycle step relation (opens, closes, timer fires) -/

/-- Lifecycle state of one document: the registry, the number of
`terminate()` tasks currently sleeping (pending shutdown timers), and
whether the server has been stopped. -/
structure LifeState where
  connections : List Conn
  pendingTimers : Nat
  stopped : Bool
deriving DecidableEq

/-- A lifecycle event: a connection opens, a connection closes, or one
pending `terminate()` task wakes from its `shutdown_wait` sleep. -/
inductive LEvent where
  | lopen (c : Conn)
  | lclose (c : Conn)
  | lfire
deriving DecidableEq

/-- One lifecycle step. `lopen` is `WSHandler.open`; `lclose` is
`WSHandler.on_close` (arming a timer whenever auto-shutdown is enabled and
the registry is empty after the removal); `lfire` is the body of
`terminate()` after its sleep: `if not any(connections): stop_server(...)`
— the woken task re-checks the registry and stops the server iff it is
empty. Nothing ever cancels a pending timer. -/
def life_step (auto : Bool) (st : LifeState) : LEvent → LifeState
  | .lopen c => { st with connections := st.connections ++ [c] }
  | .lclose c =>
    let conns :=
      if c ∈ st.connections then removeFirst st.connections c
      else st.connections
    { st with
      connections := conns,
      pendingTimers := st.pendingTimers + (if auto && conns.isEmpty then 1 else 0) }
  | .lfire =>
    if st.pendingTimers = 0 then st
    else
      { connections := st.connections,
        pendingTimers := st.pendingTimers - 1,
        stopped := st.stopped || st.connections.isEmpty }

/-- Run a sequence of lifecycle events from the initial state: no
connections, no pending timer, server running. -/
def life_run (auto : Bool) (evs : List LEvent) : LifeState :=
  evs.foldl (life_step auto) ⟨[], 0, false⟩

/-! ## Helper lemmas -/

/-- Invariant of the queue trace semantics: the broadcast batches,
concatenated, followed by the current queue contents, are exactly the
initial contents followed by every pushed message, in push order. -/
theorem qrun_invariant (ops : List QOp) (st : QState) :
    (ops.foldl qstep st).batches.flatten ++ (ops.foldl qstep st).msg_queue =
      st.batches.flatten ++ st.msg_queue ++ pushedMsgs ops := by
  induction ops generalizing st with
  | nil => simp [pushedMsgs]
  | cons op rest ih =>
    cases op with
    | push m =>
      simp only [List.foldl_cons, qstep, pushedMsgs, List.filterMap_cons]
      rw [ih]
      simp [pushedMsgs, List.append_assoc]
    | drain =>
      simp only [List.foldl_cons, qstep, pushedMsgs, List.filterMap_cons]
      by_cases h : st.msg_queue = []
      · simp [h, ih, pushedMsgs]
      · simp only [h, if_neg, ite_false]
        rw [ih]
        simp [pushedMsgs, List.flatten_append]

/-- `write_all` delivers the batch exactly to the longest failure-free
prefix of the connection list, and raises iff some connection fails. -/
theorem write_all_spec (batch : List Nat) (conns : List Conn) :
    write_all batch conns =
      ((conns.takeWhile fun c => !c.writeFails).map (fun c => (c.id, batch)),
        conns.any fun c => c.writeFails) := by
  induction conns with
  | nil => rfl
  | cons c rest ih =>
    cases h : c.writeFails with
    | true => simp [write_all, h, List.takeWhile_cons, List.any_cons]
    | false => simp [write_all, h, List.takeWhile_cons, List.any_cons, ih]

/-! ## Concrete states used by counterexamples and witnesses -/

/-- A queue of three messages facing two connections, the first of which
raises on write. -/
def badState : SState := ⟨[1, 2, 3], [⟨0, true⟩, ⟨1, false⟩]⟩

/-- A handler that leaves the document unchanged, used to instantiate the
`event_handler` / `response_handler` parameters at concrete inputs. -/
def idH : InboundObj → DocState → DocState := fun _ st => st

/-- An empty document state. -/
def docState0 : DocState := ⟨[], [], [], []⟩

/-! ## Claims -/

/-- Claim C1: over any sequence of `push_message` calls interleaved with
`send_message` drains, the broadcast batches concatenated, followed by
whatever is still queued, are exactly the pushed messages in push order —
so every pushed message lands in exactly one batch (once the queue is
finally drained), batches preserve insertion order, and nothing is lost or
duplicated. The second conjunct is the fully-drained form: after a final
drain the batches alone are exactly the pushed messages. -/
theorem C1_queue_batching (ops : List QOp) :
    (qrun ops).batches.flatten ++ (qrun ops).msg_queue = pushedMsgs ops ∧
    (qrun (ops ++ [QOp.drain])).batches.flatten = pushedMsgs ops := by
  constructor
  · simpa [qrun] using qrun_invariant ops ⟨[], []⟩
  · have h2 := qrun_invariant (ops ++ [QOp.drain]) ⟨[], []⟩
    have hq : ((ops ++ [QOp.drain]).foldl qstep ⟨[], []⟩).msg_queue = [] := by
      rw [List.foldl_append]
      simp only [List.foldl_cons, List.foldl_nil]
      by_cases he : (ops.foldl qstep ⟨[], []⟩).msg_queue = [] <;> simp [qstep, he]
    have hp : pushedMsgs (ops ++ [QOp.drain]) = pushedMsgs ops := by
      simp [pushedMsgs]
    rw [hq] at h2
    simpa [qrun, hp] using h2

/-- Claim C2, counterexample: queue `[1, 2, 3]`, two connections, the
first of which fails on write. The deliveries performed are `[]` — the
second (healthy) connection receives nothing, contradicting "every other
connection still receives the entire batch" — and the message-loop
iteration dies (`none`), contradicting "the message loop continues its
next scheduled iteration". -/
theorem C2_counterexample :
    (send_message badState).2.1 = [] ∧ message_loop_step badState = none := by
  decide

/-- Claim C2, amended: `send_message` has no per-connection error
handling, so on a non-empty queue the batch is delivered exactly to the
longest failure-free prefix of the connection list (connections at or
after the first failing one receive nothing), an exception is raised iff
some connection's write fails, and exactly in that case the exception
propagates out of `_message_loop`'s iteration and terminates the loop
task. Nothing is logged. -/
theorem C2_broadcast_aborts_on_failure (st : SState) (h : st.msg_queue ≠ []) :
    (send_message st).2.1 =
      (st.connections.takeWhile fun c => !c.writeFails).map
        (fun c => (c.id, st.msg_queue)) ∧
    (send_message st).2.2 = (st.connections.any fun c => c.writeFails) ∧
    (message_loop_step st = none ↔
      (st.connections.any fun c => c.writeFails) = true) := by
  refine ⟨?_, ?_, ?_⟩
  · simp [send_message, h, write_all_spec]
  · simp [send_message, h, write_all_spec]
  · simp only [message_loop_step, send_message, h, if_neg, ite_false,
      write_all_spec]
    cases hb : st.connections.any fun c => c.writeFails <;> simp [hb]

/-- Witness for `C2_broadcast_aborts_on_failure` at `badState`. -/
theorem C2_broadcast_aborts_on_failure_witness :
    badState.msg_queue ≠ [] ∧
    ((send_message badState).2.1 =
        (badState.connections.takeWhile fun c => !c.writeFails).map
          (fun c => (c.id, badState.msg_queue)) ∧
      (send_message badState).2.2 =
        (badState.connections.any fun c => c.writeFails) ∧
      (message_loop_step badState = none ↔
        (badState.connections.any fun c => c.writeFails) = true)) :=
  ⟨by decide, C2_broadcast_aborts_on_failure badState (by decide)⟩

/-- Claim C3, counterexample: a parseable message with unknown
discriminant `"foo"` makes `on_message` return normally with no handler
call — it does not fail with `MalformedMessageError` (nothing in the code
produces that error); and an unparseable frame raises the JSON decoder's
error, which is not `MalformedMessageError` either and propagates
uncaught. -/
theorem C3_counterexample :
    ws_on_message idH idH (some ⟨some "foo", none, none⟩) docState0 =
      .ok (docState0, []) ∧
    ws_on_message idH idH (some ⟨some "foo", none, none⟩) docState0 ≠
      .error .malformedMessageError ∧
    ws_on_message idH idH none docState0 = .error .jsonDecodeError ∧
    ws_on_message idH idH none docState0 ≠ .error .malformedMessageError := by
  decide

/-- Claim C3, amended: an inbound message whose discriminant is missing or
not one of `log`/`event`/`response` is silently ignored — `on_message`
returns normally, invokes no handler, raises nothing, logs nothing and
leaves the document unchanged (in particular the connection is not
closed); an unparseable frame instead raises the JSON decoder's error,
which propagates out of `on_message` uncaught. No `MalformedMessageError`
exists in the code. -/
theorem C3_unknown_type_silently_ignored
    (eventH respH : InboundObj → DocState → DocState)
    (msg : InboundObj) (st : DocState)
    (h : msg.typ ∉ [some "log", some "event", some "response"]) :
    ws_on_message eventH respH (some msg) st = .ok (st, []) ∧
    ws_on_message eventH respH none st = .error .jsonDecodeError := by
  simp only [List.mem_cons, List.mem_singleton, not_or, List.not_mem_nil] at h
  simp [ws_on_message, h.1, h.2.1, h.2.2.1]

/-- Witness for `C3_unknown_type_silently_ignored` at discriminant
`"bogus"`. -/
theorem C3_unknown_type_silently_ignored_witness :
    (⟨some "bogus", none, none⟩ : InboundObj).typ ∉
        [some "log", some "event", some "response"] ∧
    (ws_on_message idH idH (some ⟨some "bogus", none, none⟩) docState0 =
        .ok (docState0, []) ∧
      ws_on_message idH idH none docState0 = .error .jsonDecodeError) :=
  ⟨by decide,
    C3_unknown_type_silently_ignored idH idH ⟨some "bogus", none, none⟩
      docState0 (by decide)⟩

/-- Claim C4, counterexample: connection 0 opens and closes (arming a
grace-period timer), connection 1 registers during the grace period but
closes again before the timer fires (arming a second timer); when the
first-armed timer fires it finds the registry empty and stops the server
— so a new connection registering during the grace period does NOT
guarantee that this timer never stops the server. -/
theorem C4_counterexample :
    (life_run true
      [LEvent.lopen ⟨0, false⟩, LEvent.lclose ⟨0, false⟩,
        LEvent.lopen ⟨1, false⟩, LEvent.lclose ⟨1, false⟩,
        LEvent.lfire]).stopped = true := by
  decide

/-- Claim C4, amended: closing the last registered connection with
auto-shutdown enabled arms a grace-period timer (second conjunct); when a
pending timer fires on a not-yet-stopped server, the server is stopped if
and only if no connection is registered at that moment (first conjunct).
A connection that registered during the grace period therefore prevents
that timer from stopping the server only if the registry is still
non-empty when the timer fires; if it closed again in the interim, the
timer stops the server anyway. -/
theorem C4_fire_stops_iff_empty (st st2 : LifeState) (c : Conn)
    (hp : 0 < st.pendingTimers) (hs : st.stopped = false)
    (h2 : st2.connections = [c]) :
    ((life_step true st .lfire).stopped = true ↔ st.connections = []) ∧
    (life_step true st2 (.lclose c)).pendingTimers = st2.pendingTimers + 1 := by
  constructor
  · simp [life_step, Nat.pos_iff_ne_zero.mp hp, hs, List.isEmpty_iff]
  · simp [life_step, h2, removeFirst]

/-- Witness for `C4_fire_stops_iff_empty`: one pending timer over an
empty registry, and a close of the single registered connection. -/
theorem C4_fire_stops_iff_empty_witness :
    0 < (⟨[], 1, false⟩ : LifeState).pendingTimers ∧
    (⟨[], 1, false⟩ : LifeState).stopped = false ∧
    (⟨[⟨0, false⟩], 0, false⟩ : LifeState).connections = [⟨0, false⟩] ∧
    (((life_step true ⟨[], 1, false⟩ .lfire).stopped = true ↔
        (⟨[], 1, false⟩ : LifeState).connections = []) ∧
      (life_step true ⟨[⟨0, false⟩], 0, false⟩
          (.lclose ⟨0, false⟩)).pendingTimers =
        (⟨[⟨0, false⟩], 0, false⟩ : LifeState).pendingTimers + 1) :=
  ⟨by decide, by decide, by decide,
    C4_fire_stops_iff_empty ⟨[], 1, false⟩ ⟨[⟨0, false⟩], 0, false⟩ ⟨0, false⟩
      (by decide) (by decide) (by decide)⟩

/-- Claim C5, counterexample: in the reachable state after the well-formed
interleaving "open 0, close 0, open 1, close 1" (each close removes a
registered connection, both transitions go from one connection to zero),
two shutdown timers are pending at once — nothing disarms or deduplicates
the first timer when the second is armed. -/
theorem C5_counterexample :
    (life_run true
      [LEvent.lopen ⟨0, false⟩, LEvent.lclose ⟨0, false⟩,
        LEvent.lopen ⟨1, false⟩, LEvent.lclose ⟨1, false⟩]).pendingTimers =
      2 := by
  decide

/-- Claim C5, amended: a close event arms exactly one new timer iff
auto-shutdown is enabled and the registry is empty after the close; open
events never arm a timer, and a firing timer only consumes pending
timers. Several timers can hence be pending simultaneously when
connections open and close repeatedly within the grace period; each fires
independently and re-checks connectivity. -/
theorem C5_arming_characterization (auto : Bool) (st : LifeState)
    (c d : Conn) :
    ((life_step auto st (.lclose c)).pendingTimers = st.pendingTimers + 1 ↔
      (auto && (life_step auto st (.lclose c)).connections.isEmpty) = true) ∧
    (life_step auto st (.lopen d)).pendingTimers = st.pendingTimers ∧
    (life_step auto st .lfire).pendingTimers ≤ st.pendingTimers := by
  refine ⟨?_, rfl, ?_⟩
  · simp only [life_step]
    cases auto &&
        (if c ∈ st.connections then removeFirst st.connections c
          else st.connections).isEmpty <;>
      simp
  · simp only [life_step]
    by_cases h : st.pendingTimers = 0 <;> simp [h]

/-- Claim C6, counterexample: registering a connection already present in
the registry raises nothing — `open` appends unconditionally, leaving the
same connection registered twice (no `DuplicateConnectionError` exists in
the code). -/
theorem C6_counterexample :
    (ws_open ⟨0, false⟩ ⟨[], [], [⟨0, false⟩], []⟩).connections =
      [⟨0, false⟩, ⟨0, false⟩] := by
  decide

/-- Claim C6, amended: registering a connection always appends it to the
registry and never raises: its occurrence count increases by one (even if
it was already present, producing duplicates) and every other
connection's count is unchanged. -/
theorem C6_register_always_appends (c d : Conn) (st : DocState)
    (h : d ≠ c) :
    (ws_open c st).connections.count c = st.connections.count c + 1 ∧
    (ws_open c st).connections.count d = st.connections.count d := by
  simp [ws_open, List.count_append, h]

/-- Witness for `C6_register_always_appends` on an empty registry. -/
theorem C6_register_always_appends_witness :
    (⟨1, false⟩ : Conn) ≠ ⟨0, false⟩ ∧
    ((ws_open ⟨0, false⟩ docState0).connections.count ⟨0, false⟩ =
        docState0.connections.count ⟨0, false⟩ + 1 ∧
      (ws_open ⟨0, false⟩ docState0).connections.count ⟨1, false⟩ =
        docState0.connections.count ⟨1, false⟩) :=
  ⟨by decide,
    C6_register_always_appends ⟨0, false⟩ ⟨1, false⟩ docState0 (by decide)⟩

/-- Claim C7: `send_message` on an empty queue returns immediately — the
state is untouched, no delivery is made to any connection, and no
exception is raised, whatever the connection list is. -/
theorem C7_empty_queue_no_broadcast (conns : List Conn) :
    send_message ⟨[], conns⟩ = (⟨[], conns⟩, [], false) := by
  simp [send_message]

/-- Claim C8: closing a connection that is absent from the registry
leaves the document state (in particular the registry) unchanged, and no
error is raised — the removal is guarded by a membership test. -/
theorem C8_close_absent_noop (auto : Bool) (c : Conn) (st : DocState)
    (h : c ∉ st.connections) :
    (ws_on_close auto c st).1 = st := by
  simp [ws_on_close, h]

/-- Witness for `C8_close_absent_noop` on an empty registry. -/
theorem C8_close_absent_noop_witness :
    (⟨5, false⟩ : Conn) ∉ docState0.connections ∧
    (ws_on_close true ⟨5, false⟩ docState0).1 = docState0 :=
  ⟨by decide, C8_close_absent_noop true ⟨5, false⟩ docState0 (by decide)⟩

/-- Claim C9: dispatching a message with discriminant `log` calls only
`log_handler` with exactly the `(level, message)` fields, and returns the
document state unchanged — element tree, pending-request table,
connection registry and outbound queue are identical before and after
(the whole `DocState` is returned as-is), for arbitrary event and
response handlers. -/
theorem C9_log_dispatch_pure
    (eventH respH : InboundObj → DocState → DocState)
    (st : DocState) (lv ms : Option String) :
    ws_on_message eventH respH (some ⟨some "log", lv, ms⟩) st =
      .ok (st, [⟨lv, ms⟩]) := by
  simp [ws_on_message]

/-- Claim C10: after any `send_message` call the queue is empty (the
queue is cleared before the write loop, so this holds even when a write
raises), and a second `send_message` with no intervening `push_message`
changes nothing, delivers nothing and raises nothing. -/
theorem C10_drain_idempotent (st : SState) :
    (send_message st).1.msg_queue = [] ∧
    send_message (send_message st).1 = ((send_message st).1, [], false) := by
  by_cases h : st.msg_queue = [] <;> simp [send_message, h]
